import Mathlib

/-!
Verification of the gymnarium_application repository: a shallow embedding of
its capability catalog, configuration resolver, compatibility matrix,
simulation-driver run loops, persistence dispatch and start dispatcher,
together with theorems settling the specification claims.

Modelling conventions:
* Rust `HashMap<String, String>` is modelled by `ConfigMap`, an association
  list with unique keys (insert overwrites in place, new keys are appended).
* Rust `u128` counters are `Nat` with increments reduced modulo `2 ^ 128`.
* Rust `f64` parse results are modelled by `F64Val`: exact rationals plus the
  special values accepted by Rust's float grammar; the claims only ever
  compare values obtained by parsing identical strings, so exact rational
  arithmetic is a faithful stand-in for the rounded binary value.
* Fallible Rust functions return `Except`; an unconditional Rust `panic!()`
  inside a modelled function is an explicit constructor (`TupleParse.panicked`,
  `StartOutcome.panicked`) or an `Option` `none` outcome.
* File input/output in the persistence adapter is abstracted into oracle
  functions passed as parameters (one per codec); the suffix dispatch logic is
  translated verbatim from the source.
-/

deriving instance DecidableEq for Except

/- ------------------------------------------------------------------ -/
/- Configuration map: model of HashMap<String, String>                -/
/- ------------------------------------------------------------------ -/

def ConfigMap : Type := List (String × String)

def ConfigMap.empty : ConfigMap := []

def ConfigMap.find (m : ConfigMap) (k : String) : Option String :=
  Option.map Prod.snd (List.find? (fun p => p.1 == k) m)

def ConfigMap.insert (m : ConfigMap) (k v : String) : ConfigMap :=
  if List.any m (fun p => p.1 == k) then
    List.map (fun p => if p.1 == k then (k, v) else p) m
  else
    List.append m [(k, v)]

def ConfigMap.ofList (l : List (String × String)) : ConfigMap := l

def ConfigMap.toList (m : ConfigMap) : List (String × String) := m

instance : DecidableEq ConfigMap :=
  fun a b => decidable_of_iff (ConfigMap.toList a = ConfigMap.toList b) Iff.rfl

/- ------------------------------------------------------------------ -/
/- Primitive parsers: models of Rust str::parse for bool, uN, f64     -/
/- ------------------------------------------------------------------ -/

/-- Model of Rust `str::parse::<bool>`: accepts exactly "true" and "false";
the error string is the Display text of `ParseBoolError`. -/
def parseBool (s : String) : Except String Bool :=
  if s = "true" then .ok true
  else if s = "false" then .ok false
  else .error "provided string was not `true` or `false`"

def digitsToNat (ds : List Char) : Nat :=
  List.foldl (fun a c => a * 10 + (c.toNat - 48)) 0 ds

/-- Model of Rust `str::parse::<uN>` with maximum value `maxVal`: an optional
leading '+', then one or more ASCII digits, rejecting values above `maxVal`;
error strings are the Display texts of the `ParseIntError` kinds. -/
def parseUIntCore (maxVal : Nat) (s : String) : Except String Nat :=
  if s.data = [] then .error "cannot parse integer from empty string"
  else
    let ds := match s.data with
      | '+' :: r => r
      | r => r
    if ds = [] then .error "invalid digit found in string"
    else if List.all ds Char.isDigit then
      if digitsToNat ds ≤ maxVal then .ok (digitsToNat ds)
      else .error "number too large to fit in target type"
    else .error "invalid digit found in string"

def parseU32 (s : String) : Except String Nat := parseUIntCore (2 ^ 32 - 1) s

def parseU128 (s : String) : Except String Nat := parseUIntCore (2 ^ 128 - 1) s

/-- Value of a successful Rust `str::parse::<f64>`: an exact rational for the
decimal literals, plus the special infinity/NaN values of the grammar. -/
inductive F64Val where
  | finite (q : Rat)
  | inf
  | negInf
  | nan
deriving DecidableEq

/-- Mantissa of Rust's float grammar: `digits`, `digits '.' digits?` or
`'.' digits`, at least one digit in total.  Returns the integer-part value,
fraction-part value and fraction length. -/
def parseMantissa (cs : List Char) : Option (Nat × Nat × Nat) :=
  let ip := List.takeWhile Char.isDigit cs
  let rest := List.dropWhile Char.isDigit cs
  match rest with
  | [] => if ip = [] then none else some (digitsToNat ip, 0, 0)
  | '.' :: frac =>
    if List.all frac Char.isDigit ∧ (ip ≠ [] ∨ frac ≠ []) then
      some (digitsToNat ip, digitsToNat frac, frac.length)
    else none
  | _ => none

/-- Exponent of Rust's float grammar (the part after 'e'/'E'): an optional
sign then one or more digits. -/
def parseExpChars (cs : List Char) : Option Int :=
  let (sgn, ds) : Int × List Char := match cs with
    | '+' :: r => (1, r)
    | '-' :: r => (-1, r)
    | r => (1, r)
  if ds ≠ [] ∧ List.all ds Char.isDigit then some (sgn * (digitsToNat ds : Int))
  else none

/-- A signed decimal number of Rust's float grammar: mantissa with optional
`e`/`E` exponent, evaluated exactly as the rational
sign * (ip.fp) * 10 ^ e built with `mkRat`. -/
def parseDecimalChars (sign : Int) (cs : List Char) : Option F64Val :=
  let mant := List.takeWhile (fun c => !(c == 'e' || c == 'E')) cs
  let rest := List.dropWhile (fun c => !(c == 'e' || c == 'E')) cs
  match parseMantissa mant with
  | none => none
  | some (ip, fp, fl) =>
    let mantNum : Int := sign * ((ip * 10 ^ fl + fp : Nat) : Int)
    match rest with
    | [] => some (.finite (mkRat mantNum (10 ^ fl)))
    | _ :: expChars =>
      match parseExpChars expChars with
      | none => none
      | some e =>
        if 0 ≤ e then some (.finite (mkRat (mantNum * ((10 ^ e.toNat : Nat) : Int)) (10 ^ fl)))
        else some (.finite (mkRat mantNum (10 ^ fl * 10 ^ (-e).toNat)))

/-- Model of Rust `str::parse::<f64>`: optional sign, then case-insensitive
"inf"/"infinity"/"nan" or a decimal number; the error string is the Display
text of `ParseFloatError`. -/
def parseF64 (s : String) : Except String F64Val :=
  if s.data = [] then .error "invalid float literal"
  else
    let (sign, rest) : Int × List Char := match s.data with
      | '+' :: r => (1, r)
      | '-' :: r => (-1, r)
      | r => (1, r)
    let lower := List.map Char.toLower rest
    if lower = "inf".data ∨ lower = "infinity".data then
      .ok (if sign = 1 then .inf else .negInf)
    else if lower = "nan".data then .ok .nan
    else
      match parseDecimalChars sign rest with
      | some v => .ok v
      | none => .error "invalid float literal"

/- ------------------------------------------------------------------ -/
/- Pair-of-u32 parser: tuple_u32_u32_from_str from availables.rs      -/
/- ------------------------------------------------------------------ -/

def strStartsWith (s pre : String) : Bool := List.isPrefixOf pre.data s.data

def strEndsWith (s post : String) : Bool := List.isSuffixOf post.data s.data

/-- Model of Rust `str::split(sep)`: splitting an empty string yields one
empty part, and every separator opens a new part. -/
def splitOnChar (sep : Char) : List Char → List (List Char)
  | [] => [[]]
  | c :: rest =>
    match splitOnChar sep rest with
    | [] => [[]]
    | g :: gs => if c == sep then [] :: g :: gs else (c :: g) :: gs

/-- Model of Rust `str::trim`: strip leading and trailing whitespace. -/
def trimChars (cs : List Char) : List Char :=
  List.reverse (List.dropWhile Char.isWhitespace
    (List.reverse (List.dropWhile Char.isWhitespace cs)))

/-- Outcome of `tuple_u32_u32_from_str`: success, a parse-error string, or the
index-out-of-bounds panic the source hits when fewer than two numbers are
supplied. -/
inductive TupleParse where
  | ok (a b : Nat)
  | failed (msg : String)
  | panicked
deriving DecidableEq

/-- Left-to-right collection of u32 parses, stopping at the first error
(model of `collect::<Result<Vec<u32>, ParseIntError>>()`). -/
def collectParsedU32 : List String → Except String (List Nat)
  | [] => .ok []
  | p :: rest => do
    let n ← parseU32 p
    let ns ← collectParsedU32 rest
    pure (n :: ns)

/-- Model of the nested helper `tuple_u32_u32_from_str` in
`AvailableVisualiser::select`: strips optional surrounding parentheses,
splits on ',', trims and parses each part as u32, then indexes elements 0
and 1 (panicking when fewer than two numbers were parsed). -/
def tuple_u32_u32_from_str (s : String) : TupleParse :=
  let inner := if strStartsWith s "(" && strEndsWith s ")" then
      List.dropLast (List.drop 1 s.data)
    else s.data
  match collectParsedU32 (List.map (fun g => String.mk (trimChars g)) (splitOnChar ',' inner)) with
  | .error e => .failed e
  | .ok (a :: b :: _) => .ok a b
  | .ok _ => .panicked

/- ------------------------------------------------------------------ -/
/- split_config from main.rs                                          -/
/- ------------------------------------------------------------------ -/

structure SplitConfigState where
  output : ConfigMap
  key : String
  value : String
  currently_parsing_value : Bool
  next_escaped : Bool

/-- One character of the escaped `key=value;...` scan in `split_config`. -/
def split_config_step (st : SplitConfigState) (c : Char) : SplitConfigState :=
  if !st.next_escaped && c == '\\' then
    { st with next_escaped := true }
  else if !st.next_escaped && !st.currently_parsing_value && c == '=' then
    { st with currently_parsing_value := true }
  else if !st.next_escaped && st.currently_parsing_value && c == ';' then
    { output := st.output.insert st.key st.value
      key := ""
      value := ""
      currently_parsing_value := false
      next_escaped := st.next_escaped }
  else
    { st with
      next_escaped := false
      key := if st.currently_parsing_value then st.key else st.key.push c
      value := if st.currently_parsing_value then st.value.push c else st.value }

/-- Model of `split_config` in main.rs: parses the escaped
`key=value;key=value` configuration grammar into a map. -/
def split_config (configuration_string : String) : ConfigMap :=
  let final := List.foldl split_config_step
    ⟨ConfigMap.empty, "", "", false, false⟩ configuration_string.data
  if final.currently_parsing_value then final.output.insert final.key final.value
  else final.output

/- ------------------------------------------------------------------ -/
/- Capability catalog: the four Available enums from availables.rs    -/
/- ------------------------------------------------------------------ -/

structure AvailableConfiguration where
  name : String
  description : String
  default : String
  data_type : String
deriving DecidableEq, Inhabited

inductive SelectError where
  | ParseError (msg : String)
deriving DecidableEq

inductive AvailableEnvironment where
  | GymMountainCar
  | CodeBulletAiLearnsToDrive
deriving DecidableEq

inductive AvailableAgent where
  | Random
  | Input
deriving DecidableEq

inductive AvailableVisualiser where
  | None
  | PistonIn2d
deriving DecidableEq

inductive AvailableExitCondition where
  | EpisodesSimulated
  | VisualiserClosed
deriving DecidableEq

def AvailableEnvironment.values : List AvailableEnvironment :=
  [.GymMountainCar, .CodeBulletAiLearnsToDrive]

def AvailableEnvironment.nice_name : AvailableEnvironment → String
  | .GymMountainCar => "Gym MountainCar"
  | .CodeBulletAiLearnsToDrive => "Code Bullet AI Learns to DRIVE"

def AvailableEnvironment.long_name : AvailableEnvironment → String
  | .GymMountainCar => "gym_mountaincar"
  | .CodeBulletAiLearnsToDrive => "code_bullet_ai_learns_to_drive"

def AvailableEnvironment.short_name : AvailableEnvironment → String
  | .GymMountainCar => "g_mc"
  | .CodeBulletAiLearnsToDrive => "cb_drive"

def AvailableAgent.values : List AvailableAgent := [.Random, .Input]

def AvailableAgent.nice_name : AvailableAgent → String
  | .Random => "Random"
  | .Input => "Input"

def AvailableAgent.long_name : AvailableAgent → String
  | .Random => "random"
  | .Input => "input"

def AvailableAgent.short_name : AvailableAgent → String
  | .Random => "rand"
  | .Input => "inp"

def AvailableVisualiser.values : List AvailableVisualiser := [.None, .PistonIn2d]

def AvailableVisualiser.nice_name : AvailableVisualiser → String
  | .None => "None"
  | .PistonIn2d => "Piston in 2D"

def AvailableVisualiser.long_name : AvailableVisualiser → String
  | .None => "none"
  | .PistonIn2d => "piston2d"

def AvailableVisualiser.short_name : AvailableVisualiser → String
  | .None => "none"
  | .PistonIn2d => "pi2d"

def AvailableExitCondition.values : List AvailableExitCondition :=
  [.EpisodesSimulated, .VisualiserClosed]

def AvailableExitCondition.nice_name : AvailableExitCondition → String
  | .EpisodesSimulated => "episodes done simulating"
  | .VisualiserClosed => "visualiser is closed"

def AvailableExitCondition.long_name : AvailableExitCondition → String
  | .EpisodesSimulated => "episodes_done_simulating"
  | .VisualiserClosed => "visualiser_is_closed"

def AvailableExitCondition.short_name : AvailableExitCondition → String
  | .EpisodesSimulated => "epsdone"
  | .VisualiserClosed => "visclosed"

/- Option descriptors (available_configurations impls); the long description
texts are irrelevant to every claim and abbreviated to the empty string. -/

def AvailableEnvironment.available_configurations :
    AvailableEnvironment → List AvailableConfiguration
  | .GymMountainCar => [⟨"goal_velocity", "", "0.0", "f64"⟩]
  | .CodeBulletAiLearnsToDrive =>
    [⟨"sensor_lines_visible", "", "false", "bool"⟩,
     ⟨"track_visible", "", "true", "bool"⟩]

def AvailableAgent.available_configurations :
    AvailableAgent → List AvailableConfiguration
  | .Random => []
  | .Input => []

def AvailableVisualiser.available_configurations :
    AvailableVisualiser → List AvailableConfiguration
  | .None => []
  | .PistonIn2d =>
    [⟨"window_title", "", "Gymnarium Application", "String"⟩,
     ⟨"window_dimension", "", "(640, 480)", "(u32, u32)"⟩]

def AvailableExitCondition.available_configurations :
    AvailableExitCondition → List AvailableConfiguration
  | .EpisodesSimulated => [⟨"count_of_episodes", "", "20", "u128"⟩]
  | .VisualiserClosed => []

/- Compatibility matrix: the AvailableSupportsAvailable impls, one function
per ordered (category, category) pair. -/

def AvailableEnvironment.supports_available_agent :
    AvailableEnvironment → List AvailableAgent
  | .GymMountainCar => [.Input, .Random]
  | .CodeBulletAiLearnsToDrive => [.Input, .Random]

def AvailableEnvironment.supports_available_visualiser :
    AvailableEnvironment → List AvailableVisualiser
  | .GymMountainCar => [.None, .PistonIn2d]
  | .CodeBulletAiLearnsToDrive => [.None, .PistonIn2d]

def AvailableEnvironment.supports_available_exit_condition :
    AvailableEnvironment → List AvailableExitCondition
  | .GymMountainCar => [.EpisodesSimulated, .VisualiserClosed]
  | .CodeBulletAiLearnsToDrive => [.EpisodesSimulated, .VisualiserClosed]

def AvailableAgent.supports_available_environment :
    AvailableAgent → List AvailableEnvironment
  | .Random => [.GymMountainCar, .CodeBulletAiLearnsToDrive]
  | .Input => [.GymMountainCar, .CodeBulletAiLearnsToDrive]

def AvailableAgent.supports_available_visualiser :
    AvailableAgent → List AvailableVisualiser
  | .Random => [.None, .PistonIn2d]
  | .Input => [.None, .PistonIn2d]

def AvailableAgent.supports_available_exit_condition :
    AvailableAgent → List AvailableExitCondition
  | .Random => [.EpisodesSimulated, .VisualiserClosed]
  | .Input => [.EpisodesSimulated, .VisualiserClosed]

def AvailableVisualiser.supports_available_environment :
    AvailableVisualiser → List AvailableEnvironment
  | .None => [.GymMountainCar, .CodeBulletAiLearnsToDrive]
  | .PistonIn2d => [.GymMountainCar, .CodeBulletAiLearnsToDrive]

def AvailableVisualiser.supports_available_agent :
    AvailableVisualiser → List AvailableAgent
  | .None => [.Random, .Input]
  | .PistonIn2d => [.Random, .Input]

def AvailableVisualiser.supports_available_exit_condition :
    AvailableVisualiser → List AvailableExitCondition
  | .None => [.EpisodesSimulated, .VisualiserClosed]
  | .PistonIn2d => [.EpisodesSimulated, .VisualiserClosed]

def AvailableExitCondition.supports_available_environment :
    AvailableExitCondition → List AvailableEnvironment
  | .EpisodesSimulated => [.GymMountainCar, .CodeBulletAiLearnsToDrive]
  | .VisualiserClosed => [.GymMountainCar, .CodeBulletAiLearnsToDrive]

def AvailableExitCondition.supports_available_agent :
    AvailableExitCondition → List AvailableAgent
  | .EpisodesSimulated => [.Random, .Input]
  | .VisualiserClosed => [.Random, .Input]

def AvailableExitCondition.supports_available_visualiser :
    AvailableExitCondition → List AvailableVisualiser
  | .EpisodesSimulated => [.None, .PistonIn2d]
  | .VisualiserClosed => [.None, .PistonIn2d]

/- Alias lookup: the FromStr impls.  Rust lowercases the query string once
and compares against lowercased nice/long/short names, returning the first
match in `values` order. -/

/-- Character-wise ASCII lowercase map, the effect of Rust
`str::to_lowercase` on the catalog's ASCII names and queries. -/
def strToLower (s : String) : String := String.mk (List.map Char.toLower s.data)

def AvailableEnvironment.from_str (s : String) : Except String AvailableEnvironment :=
  match List.find? (fun e =>
      strToLower e.nice_name == strToLower s || strToLower e.long_name == strToLower s
        || strToLower e.short_name == strToLower s) AvailableEnvironment.values with
  | some e => .ok e
  | none => .error ("Did not find \"" ++ strToLower s ++ "\" in available environments.")

def AvailableAgent.from_str (s : String) : Except String AvailableAgent :=
  match List.find? (fun e =>
      strToLower e.nice_name == strToLower s || strToLower e.long_name == strToLower s
        || strToLower e.short_name == strToLower s) AvailableAgent.values with
  | some e => .ok e
  | none => .error ("Did not find \"" ++ strToLower s ++ "\" in available agents.")

def AvailableVisualiser.from_str (s : String) : Except String AvailableVisualiser :=
  match List.find? (fun e =>
      strToLower e.nice_name == strToLower s || strToLower e.long_name == strToLower s
        || strToLower e.short_name == strToLower s) AvailableVisualiser.values with
  | some e => .ok e
  | none => .error ("Did not find \"" ++ strToLower s ++ "\" in available visualisers.")

def AvailableExitCondition.from_str (s : String) : Except String AvailableExitCondition :=
  match List.find? (fun e =>
      strToLower e.nice_name == strToLower s || strToLower e.long_name == strToLower s
        || strToLower e.short_name == strToLower s) AvailableExitCondition.values with
  | some e => .ok e
  | none => .error ("Did not find \"" ++ strToLower s ++ "\" in available exit conditions.")

/- Selected enums and the select (configuration resolver) functions. -/

inductive SelectedEnvironment where
  | GymMountainCar (goal_velocity : F64Val)
  | CodeBulletAiLearnsToDrive (sensor_lines_visible track_visible : Bool)
deriving DecidableEq

inductive SelectedAgent where
  | Random
  | Input
deriving DecidableEq

inductive SelectedVisualiser where
  | None
  | PistonIn2d (window_title : String) (window_dimension : Nat × Nat)
deriving DecidableEq

inductive SelectedExitCondition where
  | EpisodesSimulated (count_of_episodes : Nat)
  | VisualiserClosed
deriving DecidableEq

/-- Model of `AvailableEnvironment::select`: each option value is taken from
the configuration map, falling back to the hard-coded default text, then
parsed; the first parse failure aborts with a `ParseError`. -/
def AvailableEnvironment.select (v : AvailableEnvironment) (configuration : ConfigMap) :
    Except SelectError SelectedEnvironment :=
  match v with
  | .GymMountainCar => do
    let gv ← (parseF64 ((configuration.find "goal_velocity").getD "0.0")).mapError
      SelectError.ParseError
    pure (.GymMountainCar gv)
  | .CodeBulletAiLearnsToDrive => do
    let slv ← (parseBool ((configuration.find "sensor_lines_visible").getD "false")).mapError
      SelectError.ParseError
    let tv ← (parseBool ((configuration.find "track_visible").getD "true")).mapError
      SelectError.ParseError
    pure (.CodeBulletAiLearnsToDrive slv tv)

/-- Model of `AvailableAgent::select`: no options, always succeeds. -/
def AvailableAgent.select (v : AvailableAgent) (_configuration : ConfigMap) :
    Except SelectError SelectedAgent :=
  match v with
  | .Random => .ok .Random
  | .Input => .ok .Input

/-- Model of `AvailableVisualiser::select`.  The `window_dimension` value is
parsed with `tuple_u32_u32_from_str`, but its error is discarded by `.ok()`
and replaced by the default `(640, 480)`; only the panic of the helper (fewer
than two numbers) escapes, modelled by the `none` outcome. -/
def AvailableVisualiser.select (v : AvailableVisualiser) (configuration : ConfigMap) :
    Option (Except SelectError SelectedVisualiser) :=
  match v with
  | .None => some (.ok .None)
  | .PistonIn2d =>
    let wt := (configuration.find "window_title").getD "Gymnarium Application"
    match configuration.find "window_dimension" with
    | Option.none => some (.ok (.PistonIn2d wt (640, 480)))
    | Option.some val =>
      match tuple_u32_u32_from_str val with
      | .ok a b => some (.ok (.PistonIn2d wt (a, b)))
      | .failed _ => some (.ok (.PistonIn2d wt (640, 480)))
      | .panicked => Option.none

/-- Model of `AvailableExitCondition::select`. -/
def AvailableExitCondition.select (v : AvailableExitCondition) (configuration : ConfigMap) :
    Except SelectError SelectedExitCondition :=
  match v with
  | .EpisodesSimulated => do
    let n ← (parseU128 ((configuration.find "count_of_episodes").getD "20")).mapError
      SelectError.ParseError
    pure (.EpisodesSimulated n)
  | .VisualiserClosed => .ok .VisualiserClosed

/- ------------------------------------------------------------------ -/
/- Simulation driver: run loops from runs.rs                          -/
/- ------------------------------------------------------------------ -/

/-- Modulus of the `u128` episode and step counters. -/
def u128Mod : Nat := 2 ^ 128

/-- Run policy from runs.rs; the seed is an opaque byte list. -/
structure RunOptions where
  seed : Option (List Nat)
  reset_environment_on_done : Bool
  reset_agent_on_done : Bool
  environment_load_path : Option String
  environment_store_path : Option String
  agent_load_path : Option String
  agent_store_path : Option String
deriving DecidableEq

/-- Abstract environment contract used by the run loops: `step` consumes an
action and yields the new environment, the new observation, a reward and the
done flag (the diagnostic info of the Rust tuple is dropped, being unused by
the loops); `reset` yields the reset environment and its first observation.
All fallible Rust calls are unwrapped in the loops, so the model is total. -/
structure EnvModel (ES OB ACT RW : Type) where
  step : ES → ACT → ES × OB × RW × Bool
  reset : ES → ES × OB

/-- Abstract agent contract used by the run loops. -/
structure AgentModel (AS OB ACT RW : Type) where
  choose_action : AS → OB → AS × ACT
  process_reward : AS → OB → OB → RW → Bool → AS
  reset : AS → AS

/-- Abstract two-dimensional visualiser contract used by the run loop:
rendering observes the environment and may update the visualiser. -/
structure VisModel (VS ES : Type) where
  render_two_dimensional : VS → ES → VS

structure NoVisLoopState (ES AS OB : Type) where
  environment : ES
  agent : AS
  state : OB
  episode : Nat
  step : Nat
deriving DecidableEq

structure TwoDimLoopState (ES AS VS OB : Type) where
  environment : ES
  agent : AS
  visualiser : VS
  state : OB
  episode : Nat
  step : Nat
deriving DecidableEq

/-- One iteration of the `run_with_no_visualiser` while-loop body
(runs.rs lines 66-86): choose an action, step the environment, increment the
step counter, process the reward, then reset the environment (zeroing the
step counter and incrementing the episode counter) when the step counter
exceeds 2000 or the reset-on-done policy fires, else carry the new
observation forward; finally reset the agent when its policy fires. -/
def run_with_no_visualiser_body {ES AS OB ACT RW : Type}
    (E : EnvModel ES OB ACT RW) (A : AgentModel AS OB ACT RW)
    (run_options : RunOptions) (s : NoVisLoopState ES AS OB) :
    NoVisLoopState ES AS OB :=
  let ac := A.choose_action s.agent s.state
  let st := E.step s.environment ac.2
  let step1 := (s.step + 1) % u128Mod
  let agent1 := A.process_reward ac.1 s.state st.2.1 st.2.2.1 st.2.2.2
  let next : NoVisLoopState ES AS OB :=
    if 2000 < step1 || (run_options.reset_environment_on_done && st.2.2.2) then
      let r := E.reset st.1
      { environment := r.1, agent := agent1, state := r.2
        episode := (s.episode + 1) % u128Mod, step := 0 }
    else
      { environment := st.1, agent := agent1, state := st.2.1
        episode := s.episode, step := step1 }
  let agent2 := if run_options.reset_agent_on_done && st.2.2.2 then A.reset next.agent
    else next.agent
  { next with agent := agent2 }

/-- One iteration of the `run_with_two_dimensional_visualiser` while-loop
body (runs.rs lines 148-173): as the headless body but without the
2000-step cap, and rendering the environment afterwards (the frame-pacing
sleep has no modelled effect). -/
def run_with_two_dimensional_visualiser_body {ES AS VS OB ACT RW : Type}
    (E : EnvModel ES OB ACT RW) (A : AgentModel AS OB ACT RW) (V : VisModel VS ES)
    (run_options : RunOptions) (s : TwoDimLoopState ES AS VS OB) :
    TwoDimLoopState ES AS VS OB :=
  let ac := A.choose_action s.agent s.state
  let st := E.step s.environment ac.2
  let step1 := (s.step + 1) % u128Mod
  let agent1 := A.process_reward ac.1 s.state st.2.1 st.2.2.1 st.2.2.2
  let next : TwoDimLoopState ES AS VS OB :=
    if run_options.reset_environment_on_done && st.2.2.2 then
      let r := E.reset st.1
      { environment := r.1, agent := agent1, visualiser := s.visualiser, state := r.2
        episode := (s.episode + 1) % u128Mod, step := 0 }
    else
      { environment := st.1, agent := agent1, visualiser := s.visualiser, state := st.2.1
        episode := s.episode, step := step1 }
  let agent2 := if run_options.reset_agent_on_done && st.2.2.2 then A.reset next.agent
    else next.agent
  { next with
    agent := agent2
    visualiser := V.render_two_dimensional next.visualiser next.environment }

/-- The `run_with_no_visualiser` while loop, fuel-indexed: evaluate the exit
condition on (environment, agent, episode, step); stop when it fires, else
run the body and repeat.  `none` means the fuel ran out. -/
def run_with_no_visualiser_loop {ES AS OB ACT RW : Type}
    (E : EnvModel ES OB ACT RW) (A : AgentModel AS OB ACT RW)
    (exit_condition : ES → AS → Nat → Nat → Bool) (run_options : RunOptions) :
    Nat → NoVisLoopState ES AS OB → Option (NoVisLoopState ES AS OB)
  | 0, _ => none
  | fuel + 1, s =>
    if exit_condition s.environment s.agent s.episode s.step then some s
    else run_with_no_visualiser_loop E A exit_condition run_options fuel
      (run_with_no_visualiser_body E A run_options s)

/-- The `run_with_two_dimensional_visualiser` while loop, fuel-indexed. -/
def run_with_two_dimensional_visualiser_loop {ES AS VS OB ACT RW : Type}
    (E : EnvModel ES OB ACT RW) (A : AgentModel AS OB ACT RW) (V : VisModel VS ES)
    (exit_condition : ES → AS → VS → Nat → Nat → Bool) (run_options : RunOptions) :
    Nat → TwoDimLoopState ES AS VS OB → Option (TwoDimLoopState ES AS VS OB)
  | 0, _ => none
  | fuel + 1, s =>
    if exit_condition s.environment s.agent s.visualiser s.episode s.step then some s
    else run_with_two_dimensional_visualiser_loop E A V exit_condition run_options fuel
      (run_with_two_dimensional_visualiser_body E A V run_options s)

/- ------------------------------------------------------------------ -/
/- Persistence adapter: load/store dispatch from runs.rs              -/
/- ------------------------------------------------------------------ -/

inductive LoadError (ε : Type) where
  | IoError (e : String)
  | SerdeJsonError (e : String)
  | RonError (e : String)
  | BincodeError (e : String)
  | EnvironmentAgentError (e : ε)
  | UnknownFormat (path : String)
deriving DecidableEq

inductive StoreError where
  | IoError (e : String)
  | SerdeJsonError (e : String)
  | RonError (e : String)
  | BincodeError (e : String)
  | UnknownFormat (path : String)
deriving DecidableEq

/-- Model of `load_environment`: dispatch on the path suffix to one of three
codecs.  `readJson`/`readRon`/`readBin` abstract "open the file and
deserialize with that codec" (their errors are the wrapped I/O or codec
errors); `envLoad` abstracts `Environment::load`, whose error is wrapped in
`EnvironmentAgentError`.  An unrecognized suffix is `UnknownFormat` naming
the full path. -/
def load_environment {EData ES ε : Type}
    (envLoad : ES → EData → Except ε ES)
    (readJson readRon readBin : String → Except (LoadError ε) EData)
    (environment : ES) (environment_load_path_string : String) :
    Except (LoadError ε) ES :=
  if strEndsWith environment_load_path_string ".json" then do
    let d ← readJson environment_load_path_string
    (envLoad environment d).mapError LoadError.EnvironmentAgentError
  else if strEndsWith environment_load_path_string ".ron" then do
    let d ← readRon environment_load_path_string
    (envLoad environment d).mapError LoadError.EnvironmentAgentError
  else if strEndsWith environment_load_path_string ".bin" then do
    let d ← readBin environment_load_path_string
    (envLoad environment d).mapError LoadError.EnvironmentAgentError
  else .error (.UnknownFormat environment_load_path_string)

/-- Model of `store_environment`: dispatch on the path suffix to one of three
codecs.  `writeJson`/`writeRon`/`writeBin` abstract "create the file and
serialize with that codec"; `envStore` abstracts `Environment::store`. -/
def store_environment {EData ES : Type}
    (envStore : ES → EData)
    (writeJson writeRon writeBin : String → EData → Except StoreError Unit)
    (environment : ES) (environment_store_path_string : String) :
    Except StoreError Unit :=
  if strEndsWith environment_store_path_string ".json" then
    writeJson environment_store_path_string (envStore environment)
  else if strEndsWith environment_store_path_string ".ron" then
    writeRon environment_store_path_string (envStore environment)
  else if strEndsWith environment_store_path_string ".bin" then
    writeBin environment_store_path_string (envStore environment)
  else .error (.UnknownFormat environment_store_path_string)

/- ------------------------------------------------------------------ -/
/- start dispatcher from main.rs                                      -/
/- ------------------------------------------------------------------ -/

/-- Which run-loop an invocation of `start` reaches, or that it hits an
unconditional `panic!()` arm. -/
inductive StartOutcome where
  | runNoVisualiser
  | runTwoDimensionalVisualiser
  | panicked
deriving DecidableEq

/-- Model of the nested dispatch in `start` (main.rs lines 863-1034),
recording which run function each fully resolved selection quadruple
reaches; `panicked` marks the `panic!()` arms. -/
def start (selected_environment : SelectedEnvironment) (selected_agent : SelectedAgent)
    (selected_visualiser : SelectedVisualiser)
    (selected_exit_condition : SelectedExitCondition) : StartOutcome :=
  match selected_environment with
  | .GymMountainCar _ =>
    match selected_agent with
    | .Random =>
      match selected_visualiser with
      | .None =>
        match selected_exit_condition with
        | .EpisodesSimulated _ => .runNoVisualiser
        | .VisualiserClosed => .panicked
      | .PistonIn2d _ _ =>
        match selected_exit_condition with
        | .EpisodesSimulated _ => .runTwoDimensionalVisualiser
        | .VisualiserClosed => .runTwoDimensionalVisualiser
    | .Input =>
      match selected_visualiser with
      | .None => .panicked
      | .PistonIn2d _ _ =>
        match selected_exit_condition with
        | .EpisodesSimulated _ => .runTwoDimensionalVisualiser
        | .VisualiserClosed => .runTwoDimensionalVisualiser
  | .CodeBulletAiLearnsToDrive _ _ =>
    match selected_agent with
    | .Random =>
      match selected_visualiser with
      | .None =>
        match selected_exit_condition with
        | .EpisodesSimulated _ => .runNoVisualiser
        | .VisualiserClosed => .panicked
      | .PistonIn2d _ _ =>
        match selected_exit_condition with
        | .EpisodesSimulated _ => .runTwoDimensionalVisualiser
        | .VisualiserClosed => .runTwoDimensionalVisualiser
    | .Input =>
      match selected_visualiser with
      | .None => .panicked
      | .PistonIn2d _ _ =>
        match selected_exit_condition with
        | .EpisodesSimulated _ => .runTwoDimensionalVisualiser
        | .VisualiserClosed => .runTwoDimensionalVisualiser


/- ------------------------------------------------------------------ -/
/- Helper definitions for statements and witnesses                    -/
/- ------------------------------------------------------------------ -/

/-- The default text of the `i`-th option descriptor of a variant. -/
def defaultTextOf (cfgs : List AvailableConfiguration) (i : Nat) : String :=
  (List.getD cfgs i default).default

/- ------------------------------------------------------------------ -/
/- Claim theorems                                                     -/
/- ------------------------------------------------------------------ -/

/-- C3: the configuration-string parser maps the escaped `key=value;...`
grammar to the key-to-value map; concretely, the character sequence
`a=1;b=x\;y` yields the map with a ↦ 1 and b ↦ x;y, and the character
sequence `k=val\;ue;ke\;y=va\\lue` yields k ↦ val;ue and ke;y ↦ va\lue. -/
theorem split_config_escaped_examples :
    split_config "a=1;b=x\\;y" = ConfigMap.ofList [("a", "1"), ("b", "x;y")] ∧
    split_config "k=val\\;ue;ke\\;y=va\\\\lue"
      = ConfigMap.ofList [("k", "val;ue"), ("ke;y", "va\\lue")] :=
  ⟨by decide, by decide⟩

/-- C4: the declared compatibility relation is symmetric — for every pair of
categories and every pair of variants, each one's supported list contains the
other exactly when the converse holds. -/
theorem compatibility_matrix_symmetric :
    (∀ (e : AvailableEnvironment) (a : AvailableAgent),
      a ∈ e.supports_available_agent ↔ e ∈ a.supports_available_environment) ∧
    (∀ (e : AvailableEnvironment) (v : AvailableVisualiser),
      v ∈ e.supports_available_visualiser ↔ e ∈ v.supports_available_environment) ∧
    (∀ (e : AvailableEnvironment) (x : AvailableExitCondition),
      x ∈ e.supports_available_exit_condition ↔ e ∈ x.supports_available_environment) ∧
    (∀ (a : AvailableAgent) (v : AvailableVisualiser),
      v ∈ a.supports_available_visualiser ↔ a ∈ v.supports_available_agent) ∧
    (∀ (a : AvailableAgent) (x : AvailableExitCondition),
      x ∈ a.supports_available_exit_condition ↔ a ∈ x.supports_available_agent) ∧
    (∀ (v : AvailableVisualiser) (x : AvailableExitCondition),
      x ∈ v.supports_available_exit_condition ↔ v ∈ x.supports_available_visualiser) := by
  refine ⟨?_, ?_, ?_, ?_, ?_, ?_⟩ <;> intro x y <;> cases x <;> cases y <;> decide

/-- C10: the dispatcher hits an unconditional panic for the Input agent with
the None visualiser, for every environment and exit condition, although the
compatibility matrix declares the combination mutually supported. -/
theorem start_input_none_panics :
    (∀ (se : SelectedEnvironment) (sx : SelectedExitCondition),
      start se .Input .None sx = .panicked) ∧
    AvailableAgent.Input ∈ AvailableVisualiser.supports_available_agent .None ∧
    AvailableVisualiser.None ∈ AvailableAgent.supports_available_visualiser .Input := by
  refine ⟨?_, by decide, by decide⟩
  intro se sx
  cases se <;> cases sx <;> rfl

/-- C8: resolving every variant of every category with an empty configuration
map succeeds, and the resulting parameter values equal the result of parsing
each option descriptor's declared default text under its type tag (for the
string-typed `window_title`, the default text itself). -/
theorem select_empty_map_applies_defaults :
    (∃ gv, parseF64 (defaultTextOf
        (AvailableEnvironment.available_configurations .GymMountainCar) 0) = .ok gv ∧
      AvailableEnvironment.select .GymMountainCar ConfigMap.empty = .ok (.GymMountainCar gv)) ∧
    (∃ slv tv, parseBool (defaultTextOf
        (AvailableEnvironment.available_configurations .CodeBulletAiLearnsToDrive) 0) = .ok slv ∧
      parseBool (defaultTextOf
        (AvailableEnvironment.available_configurations .CodeBulletAiLearnsToDrive) 1) = .ok tv ∧
      AvailableEnvironment.select .CodeBulletAiLearnsToDrive ConfigMap.empty
        = .ok (.CodeBulletAiLearnsToDrive slv tv)) ∧
    AvailableAgent.select .Random ConfigMap.empty = .ok .Random ∧
    AvailableAgent.select .Input ConfigMap.empty = .ok .Input ∧
    AvailableVisualiser.select .None ConfigMap.empty = some (.ok .None) ∧
    (∃ w h, tuple_u32_u32_from_str (defaultTextOf
        (AvailableVisualiser.available_configurations .PistonIn2d) 1) = .ok w h ∧
      AvailableVisualiser.select .PistonIn2d ConfigMap.empty
        = some (.ok (.PistonIn2d (defaultTextOf
            (AvailableVisualiser.available_configurations .PistonIn2d) 0) (w, h)))) ∧
    (∃ n, parseU128 (defaultTextOf
        (AvailableExitCondition.available_configurations .EpisodesSimulated) 0) = .ok n ∧
      AvailableExitCondition.select .EpisodesSimulated ConfigMap.empty
        = .ok (.EpisodesSimulated n)) ∧
    AvailableExitCondition.select .VisualiserClosed ConfigMap.empty = .ok .VisualiserClosed :=
  ⟨⟨F64Val.finite 0, by decide, by decide⟩,
   ⟨false, true, by decide, by decide, by decide⟩,
   by decide, by decide, by decide,
   ⟨640, 480, by decide, by decide⟩,
   ⟨20, by decide, by decide⟩,
   by decide⟩

/-- C1 counterexample: a malformed `window_dimension` pair for the PistonIn2d
visualiser does not produce a ParseError — the parse failure is discarded
and the default (640, 480) is silently substituted, so resolution succeeds. -/
theorem window_dimension_malformed_silently_defaults :
    tuple_u32_u32_from_str "not a pair" = .failed "invalid digit found in string" ∧
    AvailableVisualiser.select .PistonIn2d (ConfigMap.ofList [("window_dimension", "not a pair")])
      = some (.ok (.PistonIn2d "Gymnarium Application" (640, 480))) :=
  ⟨by decide, by decide⟩

/-- C1 amended: malformed float, boolean and unsigned-integer option values
produce a ParseError carrying the underlying parse failure description, and
resolution aborts on the first such failure; the PistonIn2d visualiser's
`window_dimension` option is the exception — its malformed pair is silently
replaced by the default (640, 480) instead of producing a ParseError. -/
theorem select_parse_error_behaviour :
    (∀ v e, parseF64 v = .error e →
      AvailableEnvironment.select .GymMountainCar (ConfigMap.ofList [("goal_velocity", v)])
        = .error (.ParseError e)) ∧
    (∀ v tv e, parseBool v = .error e →
      AvailableEnvironment.select .CodeBulletAiLearnsToDrive
        (ConfigMap.ofList [("sensor_lines_visible", v), ("track_visible", tv)])
        = .error (.ParseError e)) ∧
    (∀ v e, parseU128 v = .error e →
      AvailableExitCondition.select .EpisodesSimulated
        (ConfigMap.ofList [("count_of_episodes", v)]) = .error (.ParseError e)) ∧
    (∀ v m, tuple_u32_u32_from_str v = .failed m →
      AvailableVisualiser.select .PistonIn2d (ConfigMap.ofList [("window_dimension", v)])
        = some (.ok (.PistonIn2d "Gymnarium Application" (640, 480)))) := by
  refine ⟨?_, ?_, ?_, ?_⟩
  · intro v e h
    simp only [AvailableEnvironment.select]
    rw [show ((ConfigMap.ofList [("goal_velocity", v)]).find "goal_velocity").getD "0.0" = v
      from rfl, h]
    rfl
  · intro v tv e h
    simp only [AvailableEnvironment.select]
    rw [show ((ConfigMap.ofList [("sensor_lines_visible", v),
      ("track_visible", tv)]).find "sensor_lines_visible").getD "false" = v from rfl, h]
    rfl
  · intro v e h
    simp only [AvailableExitCondition.select]
    rw [show ((ConfigMap.ofList [("count_of_episodes", v)]).find
      "count_of_episodes").getD "20" = v from rfl, h]
    rfl
  · intro v m h
    have hred : AvailableVisualiser.select .PistonIn2d (ConfigMap.ofList [("window_dimension", v)])
        = match tuple_u32_u32_from_str v with
          | .ok a b => some (.ok (.PistonIn2d "Gymnarium Application" (a, b)))
          | .failed _ => some (.ok (.PistonIn2d "Gymnarium Application" (640, 480)))
          | .panicked => none := rfl
    rw [hred, h]

/-- Witness for the amended C1: concrete malformed values for each type tag. -/
theorem select_parse_error_behaviour_witness :
    AvailableEnvironment.select .GymMountainCar (ConfigMap.ofList [("goal_velocity", "fast")])
      = .error (.ParseError "invalid float literal") ∧
    AvailableEnvironment.select .CodeBulletAiLearnsToDrive
      (ConfigMap.ofList [("sensor_lines_visible", "maybe"), ("track_visible", "nope")])
      = .error (.ParseError "provided string was not `true` or `false`") ∧
    AvailableExitCondition.select .EpisodesSimulated
      (ConfigMap.ofList [("count_of_episodes", "-3")])
      = .error (.ParseError "invalid digit found in string") ∧
    AvailableVisualiser.select .PistonIn2d (ConfigMap.ofList [("window_dimension", "(640; 480)")])
      = some (.ok (.PistonIn2d "Gymnarium Application" (640, 480))) :=
  ⟨select_parse_error_behaviour.1 "fast" "invalid float literal" (by decide),
   select_parse_error_behaviour.2.1 "maybe" "nope"
     "provided string was not `true` or `false`" (by decide),
   select_parse_error_behaviour.2.2.1 "-3" "invalid digit found in string" (by decide),
   select_parse_error_behaviour.2.2.2 "(640; 480)" "invalid digit found in string" (by decide)⟩

/-- Success direction of alias lookup for environments: any letter-case
variant of a variant's nice, long or short name resolves to that variant. -/
theorem fromStr_env_ok (v : AvailableEnvironment) (s : String)
    (h : strToLower s = strToLower v.nice_name ∨ strToLower s = strToLower v.long_name ∨
      strToLower s = strToLower v.short_name) :
    AvailableEnvironment.from_str s = .ok v := by
  cases v <;> rcases h with h | h | h <;>
    simp only [AvailableEnvironment.nice_name, AvailableEnvironment.long_name,
      AvailableEnvironment.short_name] at h <;>
    simp only [AvailableEnvironment.from_str, h] <;> decide

theorem fromStr_agent_ok (v : AvailableAgent) (s : String)
    (h : strToLower s = strToLower v.nice_name ∨ strToLower s = strToLower v.long_name ∨
      strToLower s = strToLower v.short_name) :
    AvailableAgent.from_str s = .ok v := by
  cases v <;> rcases h with h | h | h <;>
    simp only [AvailableAgent.nice_name, AvailableAgent.long_name,
      AvailableAgent.short_name] at h <;>
    simp only [AvailableAgent.from_str, h] <;> decide

theorem fromStr_vis_ok (v : AvailableVisualiser) (s : String)
    (h : strToLower s = strToLower v.nice_name ∨ strToLower s = strToLower v.long_name ∨
      strToLower s = strToLower v.short_name) :
    AvailableVisualiser.from_str s = .ok v := by
  cases v <;> rcases h with h | h | h <;>
    simp only [AvailableVisualiser.nice_name, AvailableVisualiser.long_name,
      AvailableVisualiser.short_name] at h <;>
    simp only [AvailableVisualiser.from_str, h] <;> decide

theorem fromStr_exit_ok (v : AvailableExitCondition) (s : String)
    (h : strToLower s = strToLower v.nice_name ∨ strToLower s = strToLower v.long_name ∨
      strToLower s = strToLower v.short_name) :
    AvailableExitCondition.from_str s = .ok v := by
  cases v <;> rcases h with h | h | h <;>
    simp only [AvailableExitCondition.nice_name, AvailableExitCondition.long_name,
      AvailableExitCondition.short_name] at h <;>
    simp only [AvailableExitCondition.from_str, h] <;> decide

/-- Failure direction of alias lookup for environments: a string matching no
registered name fails with the not-found message naming the (lowercased)
input and the category. -/
theorem fromStr_env_notfound (s : String)
    (h : ∀ v ∈ AvailableEnvironment.values, strToLower s ≠ strToLower v.nice_name ∧
      strToLower s ≠ strToLower v.long_name ∧ strToLower s ≠ strToLower v.short_name) :
    AvailableEnvironment.from_str s
      = .error ("Did not find \"" ++ strToLower s ++ "\" in available environments.") := by
  have hfind : List.find? (fun e =>
      strToLower e.nice_name == strToLower s || strToLower e.long_name == strToLower s
        || strToLower e.short_name == strToLower s) AvailableEnvironment.values = none := by
    rw [List.find?_eq_none]
    intro v hv
    obtain ⟨h1, h2, h3⟩ := h v hv
    simp only [Bool.or_eq_true, beq_iff_eq, not_or]
    exact ⟨⟨Ne.symm h1, Ne.symm h2⟩, Ne.symm h3⟩
  simp only [AvailableEnvironment.from_str, hfind]

theorem fromStr_agent_notfound (s : String)
    (h : ∀ v ∈ AvailableAgent.values, strToLower s ≠ strToLower v.nice_name ∧
      strToLower s ≠ strToLower v.long_name ∧ strToLower s ≠ strToLower v.short_name) :
    AvailableAgent.from_str s
      = .error ("Did not find \"" ++ strToLower s ++ "\" in available agents.") := by
  have hfind : List.find? (fun e =>
      strToLower e.nice_name == strToLower s || strToLower e.long_name == strToLower s
        || strToLower e.short_name == strToLower s) AvailableAgent.values = none := by
    rw [List.find?_eq_none]
    intro v hv
    obtain ⟨h1, h2, h3⟩ := h v hv
    simp only [Bool.or_eq_true, beq_iff_eq, not_or]
    exact ⟨⟨Ne.symm h1, Ne.symm h2⟩, Ne.symm h3⟩
  simp only [AvailableAgent.from_str, hfind]

theorem fromStr_vis_notfound (s : String)
    (h : ∀ v ∈ AvailableVisualiser.values, strToLower s ≠ strToLower v.nice_name ∧
      strToLower s ≠ strToLower v.long_name ∧ strToLower s ≠ strToLower v.short_name) :
    AvailableVisualiser.from_str s
      = .error ("Did not find \"" ++ strToLower s ++ "\" in available visualisers.") := by
  have hfind : List.find? (fun e =>
      strToLower e.nice_name == strToLower s || strToLower e.long_name == strToLower s
        || strToLower e.short_name == strToLower s) AvailableVisualiser.values = none := by
    rw [List.find?_eq_none]
    intro v hv
    obtain ⟨h1, h2, h3⟩ := h v hv
    simp only [Bool.or_eq_true, beq_iff_eq, not_or]
    exact ⟨⟨Ne.symm h1, Ne.symm h2⟩, Ne.symm h3⟩
  simp only [AvailableVisualiser.from_str, hfind]

theorem fromStr_exit_notfound (s : String)
    (h : ∀ v ∈ AvailableExitCondition.values, strToLower s ≠ strToLower v.nice_name ∧
      strToLower s ≠ strToLower v.long_name ∧ strToLower s ≠ strToLower v.short_name) :
    AvailableExitCondition.from_str s
      = .error ("Did not find \"" ++ strToLower s ++ "\" in available exit conditions.") := by
  have hfind : List.find? (fun e =>
      strToLower e.nice_name == strToLower s || strToLower e.long_name == strToLower s
        || strToLower e.short_name == strToLower s) AvailableExitCondition.values = none := by
    rw [List.find?_eq_none]
    intro v hv
    obtain ⟨h1, h2, h3⟩ := h v hv
    simp only [Bool.or_eq_true, beq_iff_eq, not_or]
    exact ⟨⟨Ne.symm h1, Ne.symm h2⟩, Ne.symm h3⟩
  simp only [AvailableExitCondition.from_str, hfind]

/-- C6: for every variant in every category, looking up any letter-case
variant of any of its three names returns exactly that variant, and a string
matching no registered name of the category fails with a not-found error
naming the (lowercased) unrecognized input and the category searched. -/
theorem alias_resolution_exact :
    (∀ (v : AvailableEnvironment) (s : String),
      (strToLower s = strToLower v.nice_name ∨ strToLower s = strToLower v.long_name ∨
        strToLower s = strToLower v.short_name) →
      AvailableEnvironment.from_str s = .ok v) ∧
    (∀ s : String, (∀ v ∈ AvailableEnvironment.values,
        strToLower s ≠ strToLower v.nice_name ∧ strToLower s ≠ strToLower v.long_name ∧
        strToLower s ≠ strToLower v.short_name) →
      AvailableEnvironment.from_str s
        = .error ("Did not find \"" ++ strToLower s ++ "\" in available environments.")) ∧
    (∀ (v : AvailableAgent) (s : String),
      (strToLower s = strToLower v.nice_name ∨ strToLower s = strToLower v.long_name ∨
        strToLower s = strToLower v.short_name) →
      AvailableAgent.from_str s = .ok v) ∧
    (∀ s : String, (∀ v ∈ AvailableAgent.values,
        strToLower s ≠ strToLower v.nice_name ∧ strToLower s ≠ strToLower v.long_name ∧
        strToLower s ≠ strToLower v.short_name) →
      AvailableAgent.from_str s
        = .error ("Did not find \"" ++ strToLower s ++ "\" in available agents.")) ∧
    (∀ (v : AvailableVisualiser) (s : String),
      (strToLower s = strToLower v.nice_name ∨ strToLower s = strToLower v.long_name ∨
        strToLower s = strToLower v.short_name) →
      AvailableVisualiser.from_str s = .ok v) ∧
    (∀ s : String, (∀ v ∈ AvailableVisualiser.values,
        strToLower s ≠ strToLower v.nice_name ∧ strToLower s ≠ strToLower v.long_name ∧
        strToLower s ≠ strToLower v.short_name) →
      AvailableVisualiser.from_str s
        = .error ("Did not find \"" ++ strToLower s ++ "\" in available visualisers.")) ∧
    (∀ (v : AvailableExitCondition) (s : String),
      (strToLower s = strToLower v.nice_name ∨ strToLower s = strToLower v.long_name ∨
        strToLower s = strToLower v.short_name) →
      AvailableExitCondition.from_str s = .ok v) ∧
    (∀ s : String, (∀ v ∈ AvailableExitCondition.values,
        strToLower s ≠ strToLower v.nice_name ∧ strToLower s ≠ strToLower v.long_name ∧
        strToLower s ≠ strToLower v.short_name) →
      AvailableExitCondition.from_str s
        = .error ("Did not find \"" ++ strToLower s ++ "\" in available exit conditions.")) :=
  ⟨fromStr_env_ok, fromStr_env_notfound, fromStr_agent_ok, fromStr_agent_notfound,
   fromStr_vis_ok, fromStr_vis_notfound, fromStr_exit_ok, fromStr_exit_notfound⟩

/-- Witness for C6: a mixed-case short name resolves, a mixed-case nice name
resolves, and an unregistered string yields the not-found message. -/
theorem alias_resolution_exact_witness :
    AvailableEnvironment.from_str "G_MC" = .ok .GymMountainCar ∧
    AvailableVisualiser.from_str "PISTON IN 2d" = .ok .PistonIn2d ∧
    AvailableAgent.from_str "nonsense" =
      .error "Did not find \"nonsense\" in available agents." ∧
    AvailableExitCondition.from_str "EPSDONE" = .ok .EpisodesSimulated :=
  ⟨alias_resolution_exact.1 .GymMountainCar "G_MC" (by decide),
   alias_resolution_exact.2.2.2.2.1 .PistonIn2d "PISTON IN 2d" (by decide),
   alias_resolution_exact.2.2.2.1 "nonsense" (by decide),
   alias_resolution_exact.2.2.2.2.2.2.1 .EpisodesSimulated "EPSDONE" (by decide)⟩

/-- C7: `load_environment` dispatches on the `.json`/`.ron`/`.bin` path
suffix to the corresponding codec (in the if-chain order of the source), and
on a path with any other suffix both `load_environment` and
`store_environment` fail with an unknown-format error naming the full path,
for every state blob and every codec behaviour. -/
theorem load_store_suffix_dispatch :
    ∀ {EData ES ε : Type} (envLoad : ES → EData → Except ε ES)
      (readJson readRon readBin : String → Except (LoadError ε) EData)
      (envStore : ES → EData)
      (writeJson writeRon writeBin : String → EData → Except StoreError Unit)
      (env : ES) (path : String),
    (strEndsWith path ".json" = true →
      load_environment envLoad readJson readRon readBin env path
        = (readJson path).bind
            (fun d => (envLoad env d).mapError LoadError.EnvironmentAgentError) ∧
      store_environment envStore writeJson writeRon writeBin env path
        = writeJson path (envStore env)) ∧
    (strEndsWith path ".json" = false → strEndsWith path ".ron" = true →
      load_environment envLoad readJson readRon readBin env path
        = (readRon path).bind
            (fun d => (envLoad env d).mapError LoadError.EnvironmentAgentError) ∧
      store_environment envStore writeJson writeRon writeBin env path
        = writeRon path (envStore env)) ∧
    (strEndsWith path ".json" = false → strEndsWith path ".ron" = false →
        strEndsWith path ".bin" = true →
      load_environment envLoad readJson readRon readBin env path
        = (readBin path).bind
            (fun d => (envLoad env d).mapError LoadError.EnvironmentAgentError) ∧
      store_environment envStore writeJson writeRon writeBin env path
        = writeBin path (envStore env)) ∧
    (strEndsWith path ".json" = false → strEndsWith path ".ron" = false →
        strEndsWith path ".bin" = false →
      load_environment envLoad readJson readRon readBin env path
        = .error (.UnknownFormat path) ∧
      store_environment envStore writeJson writeRon writeBin env path
        = .error (.UnknownFormat path)) := by
  intro EData ES ε envLoad readJson readRon readBin envStore writeJson writeRon writeBin env path
  refine ⟨fun h1 => ⟨?_, ?_⟩, fun h1 h2 => ⟨?_, ?_⟩, fun h1 h2 h3 => ⟨?_, ?_⟩,
    fun h1 h2 h3 => ⟨?_, ?_⟩⟩ <;>
    simp only [load_environment, store_environment, h1, if_true, if_false] <;>
    try simp only [h2, if_true, if_false] <;>
    try simp only [h3, if_true, if_false]
  all_goals rfl

/-- Witness for C7: both load and store reject the path "x.unknown" with an
unknown-format error naming it. -/
theorem load_store_suffix_dispatch_witness :
    load_environment (fun (e : Unit) (_ : Unit) => (Except.ok e : Except Unit Unit))
      (fun _ => .ok ()) (fun _ => .ok ()) (fun _ => .ok ()) () "x.unknown"
      = .error (.UnknownFormat "x.unknown") ∧
    store_environment (fun (_ : Unit) => ()) (fun _ _ => .ok ()) (fun _ _ => .ok ())
      (fun _ _ => .ok ()) () "x.unknown" = .error (.UnknownFormat "x.unknown") :=
  (load_store_suffix_dispatch (fun (e : Unit) (_ : Unit) => (Except.ok e : Except Unit Unit))
    (fun _ => .ok ()) (fun _ => .ok ()) (fun _ => .ok ()) (fun (_ : Unit) => ())
    (fun _ _ => .ok ()) (fun _ _ => .ok ()) (fun _ _ => .ok ()) () "x.unknown").2.2.2
    (by decide) (by decide) (by decide)

/- Concrete component models used by counterexamples and witnesses. -/

/-- A never-done environment whose step observation is 42 and whose reset
observation is 7. -/
def cexEnv : EnvModel Unit Nat Unit Unit :=
  { step := fun _ _ => ((), 42, (), false), reset := fun _ => ((), 7) }

/-- An always-done environment with the same observations. -/
def cexEnvDone : EnvModel Unit Nat Unit Unit :=
  { step := fun _ _ => ((), 42, (), true), reset := fun _ => ((), 7) }

/-- A trivial stateless agent. -/
def cexAgent : AgentModel Unit Nat Unit Unit :=
  { choose_action := fun a _ => (a, ()), process_reward := fun a _ _ _ _ => a,
    reset := fun a => a }

/-- A trivial visualiser. -/
def cexVis : VisModel Unit Unit := { render_two_dimensional := fun v _ => v }

/-- Run options with both reset policies disabled and no persistence. -/
def cexOptions : RunOptions :=
  { seed := none, reset_environment_on_done := false, reset_agent_on_done := false,
    environment_load_path := none, environment_store_path := none,
    agent_load_path := none, agent_store_path := none }

/-- Run options with the environment reset-on-done policy enabled. -/
def cexOptionsReset : RunOptions :=
  { cexOptions with reset_environment_on_done := true }

/-- C2 counterexample: in the no-visualiser loop, with the
reset-environment-on-done policy disabled and a step whose done flag is
false, the body still resets the environment once the step counter passes
2000 — the episode counter increments, the step counter zeroes and the reset
observation (7) replaces the step's new observation (42). -/
theorem headless_resets_past_2000_despite_policy :
    cexOptions.reset_environment_on_done = false ∧
    (cexEnv.step () ()).2.2.2 = false ∧
    run_with_no_visualiser_body cexEnv cexAgent cexOptions
      { environment := (), agent := (), state := 0, episode := 0, step := 2000 }
      = { environment := (), agent := (), state := 7, episode := 1, step := 0 } :=
  ⟨rfl, rfl, by decide⟩

/-- C2 amended: in the two-dimensional-visualiser run loop the environment is
reset (episode incremented, step zeroed, reset observation carried) exactly
when the reset-on-done policy is set and the step's done flag is true, and
otherwise the new observation is carried forward; in the no-visualiser run
loop the reset additionally fires whenever the incremented step counter
exceeds 2000. -/
theorem reset_on_done_policy_characterisation :
    ∀ {ES AS VS OB ACT RW : Type} (E : EnvModel ES OB ACT RW) (A : AgentModel AS OB ACT RW)
      (V : VisModel VS ES) (opts : RunOptions),
    (∀ (s : TwoDimLoopState ES AS VS OB) (env1 : ES) (ns : OB) (rwd : RW) (done : Bool),
      E.step s.environment (A.choose_action s.agent s.state).2 = (env1, ns, rwd, done) →
      ((opts.reset_environment_on_done && done) = true →
        (run_with_two_dimensional_visualiser_body E A V opts s).state = (E.reset env1).2 ∧
        (run_with_two_dimensional_visualiser_body E A V opts s).episode
          = (s.episode + 1) % u128Mod ∧
        (run_with_two_dimensional_visualiser_body E A V opts s).step = 0) ∧
      ((opts.reset_environment_on_done && done) = false →
        (run_with_two_dimensional_visualiser_body E A V opts s).state = ns ∧
        (run_with_two_dimensional_visualiser_body E A V opts s).episode = s.episode ∧
        (run_with_two_dimensional_visualiser_body E A V opts s).step
          = (s.step + 1) % u128Mod)) ∧
    (∀ (s : NoVisLoopState ES AS OB) (env1 : ES) (ns : OB) (rwd : RW) (done : Bool),
      E.step s.environment (A.choose_action s.agent s.state).2 = (env1, ns, rwd, done) →
      ((decide (2000 < (s.step + 1) % u128Mod)
          || (opts.reset_environment_on_done && done)) = true →
        (run_with_no_visualiser_body E A opts s).state = (E.reset env1).2 ∧
        (run_with_no_visualiser_body E A opts s).episode = (s.episode + 1) % u128Mod ∧
        (run_with_no_visualiser_body E A opts s).step = 0) ∧
      ((decide (2000 < (s.step + 1) % u128Mod)
          || (opts.reset_environment_on_done && done)) = false →
        (run_with_no_visualiser_body E A opts s).state = ns ∧
        (run_with_no_visualiser_body E A opts s).episode = s.episode ∧
        (run_with_no_visualiser_body E A opts s).step = (s.step + 1) % u128Mod)) := by
  intro ES AS VS OB ACT RW E A V opts
  constructor
  · intro s env1 ns rwd done hstep
    constructor
    · intro hc
      simp only [run_with_two_dimensional_visualiser_body, hstep, hc, if_true]
      exact ⟨trivial, trivial, trivial⟩
    · intro hc
      simp only [run_with_two_dimensional_visualiser_body, hstep, hc, Bool.false_eq_true,
        if_false]
      exact ⟨trivial, trivial, trivial⟩
  · intro s env1 ns rwd done hstep
    constructor
    · intro hc
      simp only [run_with_no_visualiser_body, hstep, hc, if_true]
      exact ⟨trivial, trivial, trivial⟩
    · intro hc
      simp only [run_with_no_visualiser_body, hstep, hc, Bool.false_eq_true, if_false]
      exact ⟨trivial, trivial, trivial⟩

/-- Witness for the amended C2: with the policy enabled and an always-done
environment, the visualiser-loop body resets (episode 5 → 6, step zeroed,
reset observation 7); with the policy disabled and a never-done environment,
the headless body at step counter 3 carries the new observation forward. -/
theorem reset_on_done_policy_characterisation_witness :
    ((run_with_two_dimensional_visualiser_body cexEnvDone cexAgent cexVis cexOptionsReset
        { environment := (), agent := (), visualiser := (), state := 0,
          episode := 5, step := 3 }).state = 7 ∧
      (run_with_two_dimensional_visualiser_body cexEnvDone cexAgent cexVis cexOptionsReset
        { environment := (), agent := (), visualiser := (), state := 0,
          episode := 5, step := 3 }).episode = (5 + 1) % u128Mod ∧
      (run_with_two_dimensional_visualiser_body cexEnvDone cexAgent cexVis cexOptionsReset
        { environment := (), agent := (), visualiser := (), state := 0,
          episode := 5, step := 3 }).step = 0) ∧
    ((run_with_no_visualiser_body cexEnv cexAgent cexOptions
        { environment := (), agent := (), state := 0, episode := 5, step := 3 }).state = 42 ∧
      (run_with_no_visualiser_body cexEnv cexAgent cexOptions
        { environment := (), agent := (), state := 0, episode := 5, step := 3 }).episode = 5 ∧
      (run_with_no_visualiser_body cexEnv cexAgent cexOptions
        { environment := (), agent := (), state := 0, episode := 5, step := 3 }).step
        = (3 + 1) % u128Mod) :=
  ⟨((reset_on_done_policy_characterisation cexEnvDone cexAgent cexVis cexOptionsReset).1
      { environment := (), agent := (), visualiser := (), state := 0, episode := 5, step := 3 }
      () 42 () true rfl).1 (by decide),
   ((reset_on_done_policy_characterisation cexEnv cexAgent cexVis cexOptions).2
      { environment := (), agent := (), state := 0, episode := 5, step := 3 }
      () 42 () false rfl).2 (by decide)⟩

/-- The headless loop body never leaves the step counter above 2000. -/
theorem noVis_body_step_le {ES AS OB ACT RW : Type} (E : EnvModel ES OB ACT RW)
    (A : AgentModel AS OB ACT RW) (opts : RunOptions) (s : NoVisLoopState ES AS OB)
    (_hs : s.step ≤ 2000) : (run_with_no_visualiser_body E A opts s).step ≤ 2000 := by
  cases hbranch : (decide (2000 < (s.step + 1) % u128Mod)
      || (opts.reset_environment_on_done
        && (E.step s.environment (A.choose_action s.agent s.state).2).2.2.2)) with
  | true =>
    simp only [run_with_no_visualiser_body, hbranch, if_true]
    exact Nat.zero_le _
  | false =>
    simp only [run_with_no_visualiser_body, hbranch, Bool.false_eq_true, if_false]
    have ha := (Bool.or_eq_false_iff.mp hbranch).1
    exact Nat.le_of_not_lt (of_decide_eq_false ha)

/-- C9: in the no-visualiser loop body, a step counter passing 2000 forces an
environment reset (step zeroed, episode incremented, reset observation
carried) for every policy setting and done flag; the body preserves the
step ≤ 2000 bound; and consequently a headless run started with step ≤ 2000
ends with step ≤ 2000. -/
theorem headless_step_cap :
    ∀ {ES AS OB ACT RW : Type} (E : EnvModel ES OB ACT RW) (A : AgentModel AS OB ACT RW)
      (opts : RunOptions),
    (∀ s : NoVisLoopState ES AS OB, 2000 < (s.step + 1) % u128Mod →
      (run_with_no_visualiser_body E A opts s).state
        = (E.reset (E.step s.environment (A.choose_action s.agent s.state).2).1).2 ∧
      (run_with_no_visualiser_body E A opts s).episode = (s.episode + 1) % u128Mod ∧
      (run_with_no_visualiser_body E A opts s).step = 0) ∧
    (∀ s : NoVisLoopState ES AS OB, s.step ≤ 2000 →
      (run_with_no_visualiser_body E A opts s).step ≤ 2000) ∧
    (∀ (exit : ES → AS → Nat → Nat → Bool) (fuel : Nat) (s final : NoVisLoopState ES AS OB),
      s.step ≤ 2000 →
      run_with_no_visualiser_loop E A exit opts fuel s = some final →
      final.step ≤ 2000) := by
  intro ES AS OB ACT RW E A opts
  refine ⟨?_, noVis_body_step_le E A opts, ?_⟩
  · intro s h
    have hb : decide (2000 < (s.step + 1) % u128Mod) = true := decide_eq_true h
    have hcond : (decide (2000 < (s.step + 1) % u128Mod)
        || (opts.reset_environment_on_done
          && (E.step s.environment (A.choose_action s.agent s.state).2).2.2.2)) = true := by
      rw [hb]; exact Bool.true_or _
    simp only [run_with_no_visualiser_body, hcond, if_true]
    exact ⟨trivial, trivial, trivial⟩
  · intro exit fuel
    induction fuel with
    | zero =>
      intro s final _hs hrun
      simp [run_with_no_visualiser_loop] at hrun
    | succ n ih =>
      intro s final hs hrun
      rw [run_with_no_visualiser_loop] at hrun
      by_cases hx : exit s.environment s.agent s.episode s.step = true
      · rw [if_pos hx] at hrun
        cases hrun
        exact hs
      · rw [if_neg hx] at hrun
        exact ih (run_with_no_visualiser_body E A opts s) final
          (noVis_body_step_le E A opts s hs) hrun

/-- Witness for C9: at step counter 2000 with resets disabled and a
never-done environment, the headless body resets; the bound is preserved;
and a concrete two-iteration headless run ends with step ≤ 2000. -/
theorem headless_step_cap_witness :
    ((run_with_no_visualiser_body cexEnv cexAgent cexOptions
        { environment := (), agent := (), state := 0, episode := 0, step := 2000 }).state
      = (cexEnv.reset ()).2 ∧
     (run_with_no_visualiser_body cexEnv cexAgent cexOptions
        { environment := (), agent := (), state := 0, episode := 0, step := 2000 }).episode
      = (0 + 1) % u128Mod ∧
     (run_with_no_visualiser_body cexEnv cexAgent cexOptions
        { environment := (), agent := (), state := 0, episode := 0, step := 2000 }).step = 0) ∧
    (run_with_no_visualiser_body cexEnv cexAgent cexOptions
      { environment := (), agent := (), state := 0, episode := 0, step := 1999 }).step ≤ 2000 :=
  ⟨(headless_step_cap cexEnv cexAgent cexOptions).1
      { environment := (), agent := (), state := 0, episode := 0, step := 2000 } (by decide),
   (headless_step_cap cexEnv cexAgent cexOptions).2.1
      { environment := (), agent := (), state := 0, episode := 0, step := 1999 } (by decide)⟩

/-- With an always-done environment and the reset policy set, one headless
body iteration increments the episode counter (mod 2^128). -/
theorem noVis_body_episode_succ {ES AS OB ACT RW : Type} (E : EnvModel ES OB ACT RW)
    (A : AgentModel AS OB ACT RW) (opts : RunOptions)
    (hdone : ∀ es a, (E.step es a).2.2.2 = true)
    (hflag : opts.reset_environment_on_done = true) (s : NoVisLoopState ES AS OB) :
    (run_with_no_visualiser_body E A opts s).episode = (s.episode + 1) % u128Mod := by
  simp [run_with_no_visualiser_body, hdone, hflag]

/-- With an always-done environment and the reset policy set, one visualiser
body iteration increments the episode counter (mod 2^128). -/
theorem twoDim_body_episode_succ {ES AS VS OB ACT RW : Type} (E : EnvModel ES OB ACT RW)
    (A : AgentModel AS OB ACT RW) (V : VisModel VS ES) (opts : RunOptions)
    (hdone : ∀ es a, (E.step es a).2.2.2 = true)
    (hflag : opts.reset_environment_on_done = true) (s : TwoDimLoopState ES AS VS OB) :
    (run_with_two_dimensional_visualiser_body E A V opts s).episode
      = (s.episode + 1) % u128Mod := by
  simp [run_with_two_dimensional_visualiser_body, hdone, hflag]

/-- Fuel induction for the headless loop under the episode-budget exit
predicate: from episode N - k, fuel k + 1 reaches termination at episode N. -/
theorem run_noVis_episode_budget_aux {ES AS OB ACT RW : Type} (E : EnvModel ES OB ACT RW)
    (A : AgentModel AS OB ACT RW) (opts : RunOptions) (N : Nat) (hN : N < u128Mod)
    (hdone : ∀ es a, (E.step es a).2.2.2 = true)
    (hflag : opts.reset_environment_on_done = true) :
    ∀ k, k ≤ N → ∀ s : NoVisLoopState ES AS OB, s.episode = N - k →
      Option.map NoVisLoopState.episode
        (run_with_no_visualiser_loop E A (fun _ _ ep _ => decide (N ≤ ep)) opts (k + 1) s)
        = some N := by
  intro k
  induction k with
  | zero =>
    intro _ s hep
    have hep' : s.episode = N := by omega
    simp [run_with_no_visualiser_loop, hep']
  | succ k ih =>
    intro hk s hep
    have hlt : s.episode < N := by omega
    have hx : decide (N ≤ s.episode) = false := decide_eq_false (by omega)
    rw [run_with_no_visualiser_loop]
    simp only [hx, Bool.false_eq_true, if_false]
    have hepb : (run_with_no_visualiser_body E A opts s).episode = N - k := by
      rw [noVis_body_episode_succ E A opts hdone hflag s, hep]
      have h1 : N - (k + 1) + 1 = N - k := by omega
      rw [h1]
      exact Nat.mod_eq_of_lt (lt_of_le_of_lt (Nat.sub_le N k) hN)
    exact ih (by omega) (run_with_no_visualiser_body E A opts s) hepb

/-- Fuel induction for the two-dimensional-visualiser loop under the
episode-budget exit predicate. -/
theorem run_twoDim_episode_budget_aux {ES AS VS OB ACT RW : Type} (E : EnvModel ES OB ACT RW)
    (A : AgentModel AS OB ACT RW) (V : VisModel VS ES) (opts : RunOptions) (N : Nat)
    (hN : N < u128Mod) (hdone : ∀ es a, (E.step es a).2.2.2 = true)
    (hflag : opts.reset_environment_on_done = true) :
    ∀ k, k ≤ N → ∀ s : TwoDimLoopState ES AS VS OB, s.episode = N - k →
      Option.map TwoDimLoopState.episode
        (run_with_two_dimensional_visualiser_loop E A V
          (fun _ _ _ ep _ => decide (N ≤ ep)) opts (k + 1) s)
        = some N := by
  intro k
  induction k with
  | zero =>
    intro _ s hep
    have hep' : s.episode = N := by omega
    simp [run_with_two_dimensional_visualiser_loop, hep']
  | succ k ih =>
    intro hk s hep
    have hlt : s.episode < N := by omega
    have hx : decide (N ≤ s.episode) = false := decide_eq_false (by omega)
    rw [run_with_two_dimensional_visualiser_loop]
    simp only [hx, Bool.false_eq_true, if_false]
    have hepb : (run_with_two_dimensional_visualiser_body E A V opts s).episode = N - k := by
      rw [twoDim_body_episode_succ E A V opts hdone hflag s, hep]
      have h1 : N - (k + 1) + 1 = N - k := by omega
      rw [h1]
      exact Nat.mod_eq_of_lt (lt_of_le_of_lt (Nat.sub_le N k) hN)
    exact ih (by omega) (run_with_two_dimensional_visualiser_body E A V opts s) hepb

/-- C5: with an exit predicate firing once the episode counter reaches N,
the reset-on-done policy set and an environment reporting done on every
step, both driver loops terminate (within fuel N + 1) from the initial
counters (0, 0), and the final episode counter is exactly N — each episode
increment coincides with exactly one environment-reset transition, so the
driver performs exactly N episode resets before terminating. -/
theorem driver_episode_budget_termination :
    ∀ {ES AS VS OB ACT RW : Type} (E : EnvModel ES OB ACT RW) (A : AgentModel AS OB ACT RW)
      (V : VisModel VS ES) (opts opts2 : RunOptions) (N : Nat),
    N < u128Mod →
    (∀ es a, (E.step es a).2.2.2 = true) →
    opts.reset_environment_on_done = true →
    opts2.reset_environment_on_done = true →
    ∀ (es : ES) (ag : AS) (ob : OB) (vs : VS),
    Option.map NoVisLoopState.episode
      (run_with_no_visualiser_loop E A (fun _ _ ep _ => decide (N ≤ ep)) opts (N + 1)
        { environment := es, agent := ag, state := ob, episode := 0, step := 0 })
      = some N ∧
    Option.map TwoDimLoopState.episode
      (run_with_two_dimensional_visualiser_loop E A V
        (fun _ _ _ ep _ => decide (N ≤ ep)) opts2 (N + 1)
        { environment := es, agent := ag, visualiser := vs, state := ob,
          episode := 0, step := 0 })
      = some N := by
  intro ES AS VS OB ACT RW E A V opts opts2 N hN hdone hflag hflag2 es ag ob vs
  constructor
  · exact run_noVis_episode_budget_aux E A opts N hN hdone hflag N (Nat.le_refl N)
      { environment := es, agent := ag, state := ob, episode := 0, step := 0 }
      (by simp)
  · exact run_twoDim_episode_budget_aux E A V opts2 N hN hdone hflag2 N (Nat.le_refl N)
      { environment := es, agent := ag, visualiser := vs, state := ob,
        episode := 0, step := 0 }
      (by simp)

/-- Witness for C5: a concrete always-done run with budget N = 1 terminates
with exactly one episode reset in both loops. -/
theorem driver_episode_budget_termination_witness :
    Option.map NoVisLoopState.episode
      (run_with_no_visualiser_loop cexEnvDone cexAgent
        (fun _ _ ep _ => decide (1 ≤ ep)) cexOptionsReset 2
        { environment := (), agent := (), state := 0, episode := 0, step := 0 })
      = some 1 ∧
    Option.map TwoDimLoopState.episode
      (run_with_two_dimensional_visualiser_loop cexEnvDone cexAgent cexVis
        (fun _ _ _ ep _ => decide (1 ≤ ep)) cexOptionsReset 2
        { environment := (), agent := (), visualiser := (), state := 0,
          episode := 0, step := 0 })
      = some 1 :=
  driver_episode_budget_termination cexEnvDone cexAgent cexVis cexOptionsReset cexOptionsReset 1
    (by decide) (fun _ _ => rfl) rfl rfl () () 0 ()
